import Mathlib

/-!
Verification of the directive-selection header `include/macros.h`.

The header defines four preprocessor templates (GPU_DATA_ALLOC,
GPU_DATA_PRESENT_SIMPLE, GPU_DATA_PRESENT_IF, GPU_DATA_PRESENT_COPY), each of
which expands to literal directive text.  The text produced depends on a single
compile-time flag (OMPGPU): when the flag is defined the expansions target the
OpenMP-style offload model, otherwise the OpenACC-style accelerator model.

The embedding below models directive text as a list of characters, the
compile-time flag as the two-valued type `Mode`, and each template as a total
function from its arguments to the expanded text, copied clause for clause
from the header.  Variadic identifier lists are modelled as lists of texts
joined by a comma and a space, matching a call site written `(a, b, c)`.
-/

/-- Directive text: a sequence of characters. -/
abbrev Text := List Char

/-- A literal piece of directive text. -/
def lit (s : String) : Text := s.data

/-- The compile-time switch: `offload` is the build with OMPGPU defined
(OpenMP-style expansions), `accelerator` the build without it
(OpenACC-style expansions). -/
inductive Mode
  | offload
  | accelerator

/-- Comma-join a variadic identifier list, the way a call site
`TEMPLATE(a, b, c)` presents its arguments to the substitution. -/
def joinArgs : List Text → Text
  | [] => []
  | [x] => x
  | x :: xs => x ++ lit ", " ++ joinArgs xs

/-- `#define GPU_DATA_ALLOC(...)`: line 3 of the header under OMPGPU,
line 10 otherwise. -/
def GPU_DATA_ALLOC (m : Mode) (objs : List Text) : Text :=
  match m with
  | .offload => lit "!$omp target data map(alloc: " ++ joinArgs objs ++ lit ")"
  | .accelerator => lit "!$acc enter data create(" ++ joinArgs objs ++ lit ")"

/-- `#define GPU_DATA_PRESENT_SIMPLE(...)`: line 4 of the header under OMPGPU,
line 11 otherwise. -/
def GPU_DATA_PRESENT_SIMPLE (m : Mode) (objs : List Text) : Text :=
  match m with
  | .offload => lit "!$omp target enter data map(present: " ++ joinArgs objs ++ lit ")"
  | .accelerator => lit "!$acc data present(" ++ joinArgs objs ++ lit ")"

/-- `#define GPU_DATA_PRESENT_IF(condition_arg, ...)`: line 5 of the header
under OMPGPU, line 12 otherwise. -/
def GPU_DATA_PRESENT_IF (m : Mode) (condition_arg : Text) (objs : List Text) : Text :=
  match m with
  | .offload =>
      lit "!$omp target enter data if(" ++ condition_arg ++
        lit ") map(present: " ++ joinArgs objs ++ lit ")"
  | .accelerator =>
      lit "!$acc data present(" ++ joinArgs objs ++
        lit ") if(" ++ condition_arg ++ lit ")"

/-- `#define GPU_DATA_PRESENT_COPY(condition_arg, copyin_arg, copy_arg, ...)`:
line 6 of the header under OMPGPU, line 13 otherwise. -/
def GPU_DATA_PRESENT_COPY (m : Mode) (condition_arg copyin_arg copy_arg : Text)
    (objs : List Text) : Text :=
  match m with
  | .offload =>
      lit "!$omp target enter data if(" ++ condition_arg ++
        lit ") map(present: " ++ joinArgs objs ++
        lit ") map(to: " ++ copyin_arg ++
        lit ") map(tofrom: " ++ copy_arg ++ lit ")"
  | .accelerator =>
      lit "!$acc data present(" ++ joinArgs objs ++
        lit ") copyin(" ++ copyin_arg ++
        lit ") copy(" ++ copy_arg ++
        lit ") if(" ++ condition_arg ++ lit ")"

/-- The four template names of the header. -/
inductive Op
  | alloc
  | presentSimple
  | presentIf
  | presentCopy

/-- A call-site argument list: a guard condition, a copy-in argument, a
bidirectional-copy argument, and the variadic data-object identifiers.
Templates that take fewer parameters ignore the extra fields. -/
structure Args where
  condition_arg : Text
  copyin_arg : Text
  copy_arg : Text
  objs : List Text

/-- The directive selector: dispatch a template name and a mode to the
expansion of the corresponding header line. -/
def expand (op : Op) (m : Mode) (a : Args) : Text :=
  match op with
  | .alloc => GPU_DATA_ALLOC m a.objs
  | .presentSimple => GPU_DATA_PRESENT_SIMPLE m a.objs
  | .presentIf => GPU_DATA_PRESENT_IF m a.condition_arg a.objs
  | .presentCopy =>
      GPU_DATA_PRESENT_COPY m a.condition_arg a.copyin_arg a.copy_arg a.objs

/-- `pat` occurs contiguously somewhere inside `s`. -/
def containsSeg (s pat : Text) : Prop := ∃ l r, s = l ++ pat ++ r

/-- `s` begins with `pat`. -/
def startsWithSeg (s pat : Text) : Prop := ∃ r, s = pat ++ r

/-- Number of (possibly overlapping) occurrences of `pat` inside a text. -/
def countOcc (pat : Text) : Text → Nat
  | [] => 0
  | c :: cs => (if pat.isPrefixOf (c :: cs) then 1 else 0) + countOcc pat cs

/-- The directive sentinel of each mode family. -/
def sentinel (m : Mode) : Text :=
  match m with
  | .offload => lit "!$omp "
  | .accelerator => lit "!$acc "

/-- The copy-in-only transfer clause of each mode family. -/
def copyinClause (m : Mode) (x : Text) : Text :=
  match m with
  | .offload => lit "map(to: " ++ x ++ lit ")"
  | .accelerator => lit "copyin(" ++ x ++ lit ")"

/-- The bidirectional transfer clause of each mode family. -/
def copyClause (m : Mode) (x : Text) : Text :=
  match m with
  | .offload => lit "map(tofrom: " ++ x ++ lit ")"
  | .accelerator => lit "copy(" ++ x ++ lit ")"

/-- The residency-assertion clause of each mode family. -/
def presentClause (m : Mode) (x : Text) : Text :=
  match m with
  | .offload => lit "map(present: " ++ x ++ lit ")"
  | .accelerator => lit "present(" ++ x ++ lit ")"

/-- The guard clause, shared by both mode families. -/
def ifClause (c : Text) : Text := lit "if(" ++ c ++ lit ")"

/-- Every expansion of every template begins with the sentinel of the active
mode: `!$omp ` in the OMPGPU build, `!$acc ` otherwise. -/
theorem expand_starts_with_sentinel (op : Op) (m : Mode) (a : Args) :
    startsWithSeg (expand op m a) (sentinel m) := by
  cases op <;> cases m
  case alloc.offload =>
    exact ⟨lit "target data map(alloc: " ++ joinArgs a.objs ++ lit ")",
      by simp [expand, GPU_DATA_ALLOC, sentinel,
        show lit "!$omp target data map(alloc: " =
          lit "!$omp " ++ lit "target data map(alloc: " from by decide]⟩
  case alloc.accelerator =>
    exact ⟨lit "enter data create(" ++ joinArgs a.objs ++ lit ")",
      by simp [expand, GPU_DATA_ALLOC, sentinel,
        show lit "!$acc enter data create(" =
          lit "!$acc " ++ lit "enter data create(" from by decide]⟩
  case presentSimple.offload =>
    exact ⟨lit "target enter data map(present: " ++ joinArgs a.objs ++ lit ")",
      by simp [expand, GPU_DATA_PRESENT_SIMPLE, sentinel,
        show lit "!$omp target enter data map(present: " =
          lit "!$omp " ++ lit "target enter data map(present: " from by decide]⟩
  case presentSimple.accelerator =>
    exact ⟨lit "data present(" ++ joinArgs a.objs ++ lit ")",
      by simp [expand, GPU_DATA_PRESENT_SIMPLE, sentinel,
        show lit "!$acc data present(" =
          lit "!$acc " ++ lit "data present(" from by decide]⟩
  case presentIf.offload =>
    exact ⟨lit "target enter data if(" ++ a.condition_arg ++
        lit ") map(present: " ++ joinArgs a.objs ++ lit ")",
      by simp [expand, GPU_DATA_PRESENT_IF, sentinel,
        show lit "!$omp target enter data if(" =
          lit "!$omp " ++ lit "target enter data if(" from by decide]⟩
  case presentIf.accelerator =>
    exact ⟨lit "data present(" ++ joinArgs a.objs ++
        lit ") if(" ++ a.condition_arg ++ lit ")",
      by simp [expand, GPU_DATA_PRESENT_IF, sentinel,
        show lit "!$acc data present(" =
          lit "!$acc " ++ lit "data present(" from by decide]⟩
  case presentCopy.offload =>
    exact ⟨lit "target enter data if(" ++ a.condition_arg ++
        lit ") map(present: " ++ joinArgs a.objs ++
        lit ") map(to: " ++ a.copyin_arg ++
        lit ") map(tofrom: " ++ a.copy_arg ++ lit ")",
      by simp [expand, GPU_DATA_PRESENT_COPY, sentinel,
        show lit "!$omp target enter data if(" =
          lit "!$omp " ++ lit "target enter data if(" from by decide]⟩
  case presentCopy.accelerator =>
    exact ⟨lit "data present(" ++ joinArgs a.objs ++
        lit ") copyin(" ++ a.copyin_arg ++
        lit ") copy(" ++ a.copy_arg ++
        lit ") if(" ++ a.condition_arg ++ lit ")",
      by simp [expand, GPU_DATA_PRESENT_COPY, sentinel,
        show lit "!$acc data present(" =
          lit "!$acc " ++ lit "data present(" from by decide]⟩

/-- The copy expansion carries its copy-in argument inside the mode's
copy-in-only clause. -/
theorem copy_has_copyin (m : Mode) (cond ci co : Text) (objs : List Text) :
    containsSeg (GPU_DATA_PRESENT_COPY m cond ci co objs) (copyinClause m ci) := by
  cases m
  case offload =>
    exact ⟨lit "!$omp target enter data if(" ++ cond ++
        lit ") map(present: " ++ joinArgs objs ++ lit ") ",
      lit " map(tofrom: " ++ co ++ lit ")",
      by simp [GPU_DATA_PRESENT_COPY, copyinClause,
        show lit ") map(to: " = lit ") " ++ lit "map(to: " from by decide,
        show lit ") map(tofrom: " = lit ")" ++ lit " map(tofrom: " from by decide]⟩
  case accelerator =>
    exact ⟨lit "!$acc data present(" ++ joinArgs objs ++ lit ") ",
      lit " copy(" ++ co ++ lit ") if(" ++ cond ++ lit ")",
      by simp [GPU_DATA_PRESENT_COPY, copyinClause,
        show lit ") copyin(" = lit ") " ++ lit "copyin(" from by decide,
        show lit ") copy(" = lit ")" ++ lit " copy(" from by decide]⟩

/-- The copy expansion carries its copy argument inside the mode's
bidirectional transfer clause. -/
theorem copy_has_copy (m : Mode) (cond ci co : Text) (objs : List Text) :
    containsSeg (GPU_DATA_PRESENT_COPY m cond ci co objs) (copyClause m co) := by
  cases m
  case offload =>
    exact ⟨lit "!$omp target enter data if(" ++ cond ++
        lit ") map(present: " ++ joinArgs objs ++
        lit ") map(to: " ++ ci ++ lit ") ",
      [],
      by simp [GPU_DATA_PRESENT_COPY, copyClause,
        show lit ") map(tofrom: " = lit ") " ++ lit "map(tofrom: " from by decide]⟩
  case accelerator =>
    exact ⟨lit "!$acc data present(" ++ joinArgs objs ++
        lit ") copyin(" ++ ci ++ lit ") ",
      lit " if(" ++ cond ++ lit ")",
      by simp [GPU_DATA_PRESENT_COPY, copyClause,
        show lit ") copy(" = lit ") " ++ lit "copy(" from by decide,
        show lit ") if(" = lit ")" ++ lit " if(" from by decide]⟩

/-- The copy expansion carries its data objects inside the mode's
residency-assertion clause. -/
theorem copy_has_present (m : Mode) (cond ci co : Text) (objs : List Text) :
    containsSeg (GPU_DATA_PRESENT_COPY m cond ci co objs)
      (presentClause m (joinArgs objs)) := by
  cases m
  case offload =>
    exact ⟨lit "!$omp target enter data if(" ++ cond ++ lit ") ",
      lit " map(to: " ++ ci ++ lit ") map(tofrom: " ++ co ++ lit ")",
      by simp [GPU_DATA_PRESENT_COPY, presentClause,
        show lit ") map(present: " = lit ") " ++ lit "map(present: " from by decide,
        show lit ") map(to: " = lit ")" ++ lit " map(to: " from by decide]⟩
  case accelerator =>
    exact ⟨lit "!$acc data ",
      lit " copyin(" ++ ci ++ lit ") copy(" ++ co ++
        lit ") if(" ++ cond ++ lit ")",
      by simp [GPU_DATA_PRESENT_COPY, presentClause,
        show lit "!$acc data present(" = lit "!$acc data " ++ lit "present(" from by decide,
        show lit ") copyin(" = lit ")" ++ lit " copyin(" from by decide]⟩

/-- The copy expansion carries its guard inside an `if(...)` clause. -/
theorem copy_has_if (m : Mode) (cond ci co : Text) (objs : List Text) :
    containsSeg (GPU_DATA_PRESENT_COPY m cond ci co objs) (ifClause cond) := by
  cases m
  case offload =>
    exact ⟨lit "!$omp target enter data ",
      lit " map(present: " ++ joinArgs objs ++
        lit ") map(to: " ++ ci ++ lit ") map(tofrom: " ++ co ++ lit ")",
      by simp [GPU_DATA_PRESENT_COPY, ifClause,
        show lit "!$omp target enter data if(" =
          lit "!$omp target enter data " ++ lit "if(" from by decide,
        show lit ") map(present: " = lit ")" ++ lit " map(present: " from by decide]⟩
  case accelerator =>
    exact ⟨lit "!$acc data present(" ++ joinArgs objs ++
        lit ") copyin(" ++ ci ++ lit ") copy(" ++ co ++ lit ") ",
      [],
      by simp [GPU_DATA_PRESENT_COPY, ifClause,
        show lit ") if(" = lit ") " ++ lit "if(" from by decide]⟩

/-- The conditional-present expansion carries its guard inside an `if(...)`
clause. -/
theorem presentIf_has_if (m : Mode) (cond : Text) (objs : List Text) :
    containsSeg (GPU_DATA_PRESENT_IF m cond objs) (ifClause cond) := by
  cases m
  case offload =>
    exact ⟨lit "!$omp target enter data ",
      lit " map(present: " ++ joinArgs objs ++ lit ")",
      by simp [GPU_DATA_PRESENT_IF, ifClause,
        show lit "!$omp target enter data if(" =
          lit "!$omp target enter data " ++ lit "if(" from by decide,
        show lit ") map(present: " = lit ")" ++ lit " map(present: " from by decide]⟩
  case accelerator =>
    exact ⟨lit "!$acc data present(" ++ joinArgs objs ++ lit ") ",
      [],
      by simp [GPU_DATA_PRESENT_IF, ifClause,
        show lit ") if(" = lit ") " ++ lit "if(" from by decide]⟩

/-- The conditional-present expansion carries its data objects inside the
mode's residency-assertion clause. -/
theorem presentIf_has_present (m : Mode) (cond : Text) (objs : List Text) :
    containsSeg (GPU_DATA_PRESENT_IF m cond objs)
      (presentClause m (joinArgs objs)) := by
  cases m
  case offload =>
    exact ⟨lit "!$omp target enter data if(" ++ cond ++ lit ") ",
      [],
      by simp [GPU_DATA_PRESENT_IF, presentClause,
        show lit ") map(present: " = lit ") " ++ lit "map(present: " from by decide]⟩
  case accelerator =>
    exact ⟨lit "!$acc data ",
      lit " if(" ++ cond ++ lit ")",
      by simp [GPU_DATA_PRESENT_IF, presentClause,
        show lit "!$acc data present(" = lit "!$acc data " ++ lit "present(" from by decide,
        show lit ") if(" = lit ")" ++ lit " if(" from by decide]⟩

/-- Two beginnings of the same text with the same length are equal. -/
theorem startsWithSeg_eq_of_length (s p q : Text) (hp : startsWithSeg s p)
    (hq : startsWithSeg s q) (h : p.length = q.length) : p = q := by
  obtain ⟨r1, h1⟩ := hp
  obtain ⟨r2, h2⟩ := hq
  exact (List.append_inj (h1.symm.trans h2) h).1

/-- No template ever expands to empty text. -/
theorem expand_ne_nil (op : Op) (m : Mode) (a : Args) : expand op m a ≠ [] := by
  obtain ⟨r, h⟩ := expand_starts_with_sentinel op m a
  rw [h]
  intro hnil
  have h2 := (List.append_eq_nil.mp hnil).1
  cases m
  · exact absurd h2 (by decide)
  · exact absurd h2 (by decide)

/-- C1: for every mode, guard `cond`, copy-in argument, copy-out argument and
non-empty data-object list, the GPU_DATA_PRESENT_COPY expansion contains the
copy-in argument in the copy-in-only clause (`map(to: ...)` under OMPGPU,
`copyin(...)` otherwise), the copy-out argument in the bidirectional clause
(`map(tofrom: ...)` under OMPGPU, `copy(...)` otherwise), the data objects in
the residency clause, and the guard in an `if(...)` clause. -/
theorem presentCopy_places_all_clauses (m : Mode) (cond ci co : Text)
    (objs : List Text) (h : objs ≠ []) :
    containsSeg (GPU_DATA_PRESENT_COPY m cond ci co objs) (copyinClause m ci) ∧
    containsSeg (GPU_DATA_PRESENT_COPY m cond ci co objs) (copyClause m co) ∧
    containsSeg (GPU_DATA_PRESENT_COPY m cond ci co objs)
      (presentClause m (joinArgs objs)) ∧
    containsSeg (GPU_DATA_PRESENT_COPY m cond ci co objs) (ifClause cond) :=
  ⟨copy_has_copyin m cond ci co objs, copy_has_copy m cond ci co objs,
    copy_has_present m cond ci co objs, copy_has_if m cond ci co objs⟩

/-- C1 witness: the clause placement at a concrete call. -/
theorem presentCopy_places_all_clauses_witness :
    containsSeg (GPU_DATA_PRESENT_COPY Mode.offload (lit "flag") (lit "a") (lit "b")
        [lit "x"]) (copyinClause Mode.offload (lit "a")) ∧
    containsSeg (GPU_DATA_PRESENT_COPY Mode.offload (lit "flag") (lit "a") (lit "b")
        [lit "x"]) (copyClause Mode.offload (lit "b")) ∧
    containsSeg (GPU_DATA_PRESENT_COPY Mode.offload (lit "flag") (lit "a") (lit "b")
        [lit "x"]) (presentClause Mode.offload (joinArgs [lit "x"])) ∧
    containsSeg (GPU_DATA_PRESENT_COPY Mode.offload (lit "flag") (lit "a") (lit "b")
        [lit "x"]) (ifClause (lit "flag")) :=
  presentCopy_places_all_clauses Mode.offload (lit "flag") (lit "a") (lit "b")
    [lit "x"] (by decide)

/-- C2: for every non-empty data-object list, GPU_DATA_ALLOC expands under
OMPGPU to the allocate-on-device directive `!$omp target data map(alloc: objs)`
and otherwise to the create-on-device directive `!$acc enter data create(objs)`;
at the call `GPU_DATA_ALLOC(bufferA)` each mode's expansion mentions `bufferA`
exactly once. -/
theorem alloc_expansion (objs : List Text) (h : objs ≠ []) :
    GPU_DATA_ALLOC Mode.offload objs =
      lit "!$omp target data " ++ (lit "map(alloc: " ++ joinArgs objs ++ lit ")") ∧
    GPU_DATA_ALLOC Mode.accelerator objs =
      lit "!$acc enter data " ++ (lit "create(" ++ joinArgs objs ++ lit ")") ∧
    countOcc (lit "bufferA") (GPU_DATA_ALLOC Mode.offload [lit "bufferA"]) = 1 ∧
    countOcc (lit "bufferA") (GPU_DATA_ALLOC Mode.accelerator [lit "bufferA"]) = 1 := by
  refine ⟨?_, ?_, by decide, by decide⟩
  · simp [GPU_DATA_ALLOC,
      show lit "!$omp target data map(alloc: " =
        lit "!$omp target data " ++ lit "map(alloc: " from by decide]
  · simp [GPU_DATA_ALLOC,
      show lit "!$acc enter data create(" =
        lit "!$acc enter data " ++ lit "create(" from by decide]

/-- C2 witness: the allocation expansions at the call `GPU_DATA_ALLOC(bufferA)`. -/
theorem alloc_expansion_witness :
    GPU_DATA_ALLOC Mode.offload [lit "bufferA"] =
      lit "!$omp target data " ++
        (lit "map(alloc: " ++ joinArgs [lit "bufferA"] ++ lit ")") ∧
    GPU_DATA_ALLOC Mode.accelerator [lit "bufferA"] =
      lit "!$acc enter data " ++
        (lit "create(" ++ joinArgs [lit "bufferA"] ++ lit ")") ∧
    countOcc (lit "bufferA") (GPU_DATA_ALLOC Mode.offload [lit "bufferA"]) = 1 ∧
    countOcc (lit "bufferA") (GPU_DATA_ALLOC Mode.accelerator [lit "bufferA"]) = 1 :=
  alloc_expansion [lit "bufferA"] (by decide)

/-- C3: for every non-empty data-object list, GPU_DATA_PRESENT_SIMPLE expands
under OMPGPU to an enter-data directive carrying the residency clause
`map(present: objs)`, and otherwise to a data-region directive carrying the
residency clause `present(objs)`. -/
theorem presentSimple_expansion (objs : List Text) (h : objs ≠ []) :
    GPU_DATA_PRESENT_SIMPLE Mode.offload objs =
      lit "!$omp target enter data " ++ presentClause Mode.offload (joinArgs objs) ∧
    GPU_DATA_PRESENT_SIMPLE Mode.accelerator objs =
      lit "!$acc data " ++ presentClause Mode.accelerator (joinArgs objs) := by
  constructor
  · simp [GPU_DATA_PRESENT_SIMPLE, presentClause,
      show lit "!$omp target enter data map(present: " =
        lit "!$omp target enter data " ++ lit "map(present: " from by decide]
  · simp [GPU_DATA_PRESENT_SIMPLE, presentClause,
      show lit "!$acc data present(" =
        lit "!$acc data " ++ lit "present(" from by decide]

/-- C3 witness: the present-simple expansions at a concrete call. -/
theorem presentSimple_expansion_witness :
    GPU_DATA_PRESENT_SIMPLE Mode.offload [lit "x"] =
      lit "!$omp target enter data " ++
        presentClause Mode.offload (joinArgs [lit "x"]) ∧
    GPU_DATA_PRESENT_SIMPLE Mode.accelerator [lit "x"] =
      lit "!$acc data " ++ presentClause Mode.accelerator (joinArgs [lit "x"]) :=
  presentSimple_expansion [lit "x"] (by decide)

/-- C4: for every mode, guard `cond` and non-empty data-object list, the
GPU_DATA_PRESENT_IF expansion embeds the guard verbatim inside an `if(cond)`
clause, in addition to the residency clause over the data objects. -/
theorem presentIf_embeds_guard (m : Mode) (cond : Text) (objs : List Text)
    (h : objs ≠ []) :
    containsSeg (GPU_DATA_PRESENT_IF m cond objs) (ifClause cond) ∧
    containsSeg (GPU_DATA_PRESENT_IF m cond objs)
      (presentClause m (joinArgs objs)) :=
  ⟨presentIf_has_if m cond objs, presentIf_has_present m cond objs⟩

/-- C4 witness: the guard embedding at a concrete call. -/
theorem presentIf_embeds_guard_witness :
    containsSeg (GPU_DATA_PRESENT_IF Mode.accelerator (lit "useGpu") [lit "x"])
      (ifClause (lit "useGpu")) ∧
    containsSeg (GPU_DATA_PRESENT_IF Mode.accelerator (lit "useGpu") [lit "x"])
      (presentClause Mode.accelerator (joinArgs [lit "x"])) :=
  presentIf_embeds_guard Mode.accelerator (lit "useGpu") [lit "x"] (by decide)

/-- C5: the copy-in and copy-out argument positions of GPU_DATA_PRESENT_COPY
accept identifier lists of any length, the empty list included; the expansion
places the whole copy-in list inside the copy-in-only clause and the whole
copy-out list inside the bidirectional clause, in both modes. -/
theorem presentCopy_accepts_any_lists (m : Mode) (cond : Text)
    (copyIn copyOut : List Text) (objs : List Text) :
    containsSeg
      (GPU_DATA_PRESENT_COPY m cond (joinArgs copyIn) (joinArgs copyOut) objs)
      (copyinClause m (joinArgs copyIn)) ∧
    containsSeg
      (GPU_DATA_PRESENT_COPY m cond (joinArgs copyIn) (joinArgs copyOut) objs)
      (copyClause m (joinArgs copyOut)) :=
  ⟨copy_has_copyin m cond (joinArgs copyIn) (joinArgs copyOut) objs,
    copy_has_copy m cond (joinArgs copyIn) (joinArgs copyOut) objs⟩

/-- C6: the mapping from (template name, mode) to output text is total and
fixed: every one of the eight combinations of the four templates with the two
modes has exactly one defined, non-empty expansion for any argument list. -/
theorem expansion_total_and_fixed (op : Op) (m : Mode) (a : Args) :
    expand op m a ≠ [] ∧ ∃! t, expand op m a = t :=
  ⟨expand_ne_nil op m a, expand op m a, rfl, fun _ hy => hy.symm⟩

/-- C7: for every template and every fixed argument list, the expansion under
the OMPGPU mode differs from the expansion under the other mode: no template
is mode-invariant. -/
theorem expansion_mode_sensitive (op : Op) (a : Args) :
    expand op Mode.offload a ≠ expand op Mode.accelerator a := by
  intro h
  have h1 := expand_starts_with_sentinel op Mode.offload a
  have h2 := expand_starts_with_sentinel op Mode.accelerator a
  rw [h] at h1
  have h3 := startsWithSeg_eq_of_length _ _ _ h1 h2 (by decide)
  exact absurd h3 (by decide)

/-- C7 witness: the two modes disagree at a concrete allocation call. -/
theorem expansion_mode_sensitive_witness :
    expand Op.alloc Mode.offload ⟨[], [], [], [lit "x"]⟩ ≠
      expand Op.alloc Mode.accelerator ⟨[], [], [], [lit "x"]⟩ :=
  expansion_mode_sensitive Op.alloc ⟨[], [], [], [lit "x"]⟩

/-- C8: expansion is deterministic: the expanded text is a pure function of
the template name, the mode and the argument list, so two invocations with
equal arguments under the same mode produce identical text. -/
theorem expansion_deterministic (op : Op) (m : Mode) (a b : Args) (h : a = b) :
    expand op m a = expand op m b := by
  rw [h]

/-- C8 witness: two identical invocations of a concrete copy call agree. -/
theorem expansion_deterministic_witness :
    expand Op.presentCopy Mode.offload (Args.mk (lit "c") (lit "p") (lit "q") [lit "x"]) =
      expand Op.presentCopy Mode.offload (Args.mk (lit "c") (lit "p") (lit "q") [lit "x"]) :=
  expansion_deterministic Op.presentCopy Mode.offload
    (Args.mk (lit "c") (lit "p") (lit "q") [lit "x"])
    (Args.mk (lit "c") (lit "p") (lit "q") [lit "x"]) rfl

/-- C9: every expansion of every template begins with the Fortran directive
sentinel of the active mode: `!$omp ` when OMPGPU is defined and `!$acc `
otherwise; no expansion starts in any other dialect. -/
theorem expansion_sentinel_dialect (op : Op) (a : Args) :
    startsWithSeg (expand op Mode.offload a) (lit "!$omp ") ∧
    startsWithSeg (expand op Mode.accelerator a) (lit "!$acc ") :=
  ⟨expand_starts_with_sentinel op Mode.offload a,
    expand_starts_with_sentinel op Mode.accelerator a⟩

/-- C10: the structured/unstructured pairing is swapped between modes: under
OMPGPU, GPU_DATA_ALLOC opens a structured `target data` region while the three
present-family templates emit unstructured `target enter data` directives;
without OMPGPU, GPU_DATA_ALLOC emits an unstructured `enter data` directive
while the three present-family templates open structured `data` regions. -/
theorem structured_unstructured_swap (a : Args) :
    startsWithSeg (expand Op.alloc Mode.offload a) (lit "!$omp target data ") ∧
    startsWithSeg (expand Op.presentSimple Mode.offload a)
      (lit "!$omp target enter data ") ∧
    startsWithSeg (expand Op.presentIf Mode.offload a)
      (lit "!$omp target enter data ") ∧
    startsWithSeg (expand Op.presentCopy Mode.offload a)
      (lit "!$omp target enter data ") ∧
    startsWithSeg (expand Op.alloc Mode.accelerator a) (lit "!$acc enter data ") ∧
    startsWithSeg (expand Op.presentSimple Mode.accelerator a) (lit "!$acc data ") ∧
    startsWithSeg (expand Op.presentIf Mode.accelerator a) (lit "!$acc data ") ∧
    startsWithSeg (expand Op.presentCopy Mode.accelerator a) (lit "!$acc data ") := by
  refine ⟨?_, ?_, ?_, ?_, ?_, ?_, ?_, ?_⟩
  · exact ⟨lit "map(alloc: " ++ joinArgs a.objs ++ lit ")",
      by simp [expand, GPU_DATA_ALLOC,
        show lit "!$omp target data map(alloc: " =
          lit "!$omp target data " ++ lit "map(alloc: " from by decide]⟩
  · exact ⟨lit "map(present: " ++ joinArgs a.objs ++ lit ")",
      by simp [expand, GPU_DATA_PRESENT_SIMPLE,
        show lit "!$omp target enter data map(present: " =
          lit "!$omp target enter data " ++ lit "map(present: " from by decide]⟩
  · exact ⟨lit "if(" ++ a.condition_arg ++ lit ") map(present: " ++
        joinArgs a.objs ++ lit ")",
      by simp [expand, GPU_DATA_PRESENT_IF,
        show lit "!$omp target enter data if(" =
          lit "!$omp target enter data " ++ lit "if(" from by decide]⟩
  · exact ⟨lit "if(" ++ a.condition_arg ++ lit ") map(present: " ++
        joinArgs a.objs ++ lit ") map(to: " ++ a.copyin_arg ++
        lit ") map(tofrom: " ++ a.copy_arg ++ lit ")",
      by simp [expand, GPU_DATA_PRESENT_COPY,
        show lit "!$omp target enter data if(" =
          lit "!$omp target enter data " ++ lit "if(" from by decide]⟩
  · exact ⟨lit "create(" ++ joinArgs a.objs ++ lit ")",
      by simp [expand, GPU_DATA_ALLOC,
        show lit "!$acc enter data create(" =
          lit "!$acc enter data " ++ lit "create(" from by decide]⟩
  · exact ⟨lit "present(" ++ joinArgs a.objs ++ lit ")",
      by simp [expand, GPU_DATA_PRESENT_SIMPLE,
        show lit "!$acc data present(" =
          lit "!$acc data " ++ lit "present(" from by decide]⟩
  · exact ⟨lit "present(" ++ joinArgs a.objs ++ lit ") if(" ++
        a.condition_arg ++ lit ")",
      by simp [expand, GPU_DATA_PRESENT_IF,
        show lit "!$acc data present(" =
          lit "!$acc data " ++ lit "present(" from by decide]⟩
  · exact ⟨lit "present(" ++ joinArgs a.objs ++ lit ") copyin(" ++
        a.copyin_arg ++ lit ") copy(" ++ a.copy_arg ++
        lit ") if(" ++ a.condition_arg ++ lit ")",
      by simp [expand, GPU_DATA_PRESENT_COPY,
        show lit "!$acc data present(" =
          lit "!$acc data " ++ lit "present(" from by decide]⟩
